import Mathlib

/-!
Verification of the SmishGrade heuristic URL scorer (src/SmishGrade.py)
against its natural-language specification.

Shallow embedding conventions:
- The external collaborators (urllib.parse.urlparse + tldextract, the
  ipaddress literal check, and the WHOIS client) are parameters of the
  embedded functions: a parse function returning `Option ParsedUrl`
  (`none` models a raised exception, caught at SmishGrade.py:144), a
  predicate `is_ip : String → Bool` (true iff ipaddress.ip_address
  succeeds, SmishGrade.py:152-156), and a WHOIS function returning
  `Except String WhoisInfo` (`.error` models any raised exception,
  SmishGrade.py:117).
- Python strings are Lean `String`; `pat in s` is `strContainsSub s pat`;
  `s.count(c)` is `s.toList.count c`; `s.lower()` is `strLower s`;
  `s.startswith(p)` is `strStartsWith s p` (all executable by kernel
  reduction, unlike some of the core String functions).
- Dates are modelled as whole days since an epoch (`Int`), so the
  whole-day difference `(datetime.now(utc) - origin_date).days` is `Int`
  subtraction `now - origin_date`.
- The in-memory WHOIS cache (a Python dict from domain to age) is an
  association list `List (String × Int)` threaded explicitly; the
  embedded `get_domain_age` additionally reports how many external WHOIS
  queries the call issued (0 or 1), which instruments the code without
  changing it.
- `time.sleep(1.5)` (SmishGrade.py:107) is pure pacing with no effect on
  any returned value and is not modelled.
-/

/-- Byte-for-byte rendering of `abused_TLD` (SmishGrade.py:44); the Python
set is modelled as a list, membership is exact string equality either way. -/
def abused_TLD : List String := [".xyz", ".top", ".link", ".club", ".online", ".live"]

/-- Byte-for-byte rendering of `suspicious_keywords` (SmishGrade.py:46). -/
def suspicious_keywords : List String := ["login", "verify", "secure", "account", "update", "bank"]

/-- The dict `heuristic_weights` (SmishGrade.py:52-60) as a function from
heuristic identifier to weight. -/
def heuristic_weights : String → Nat
  | "H1_Length" => 5
  | "H2_IP_Hostname" => 40
  | "H3_At_Symbol" => 10
  | "H4_Keywords" => 5
  | "H5_Subdomains" => 15
  | "H6_Abused_TLD" => 20
  | "H7_Domain_Age" => 50
  | _ => 0

/-- `malicious_threshold` (SmishGrade.py:65). -/
def malicious_threshold : Nat := 20

/-- `suspicious_threshold` (SmishGrade.py:66). -/
def suspicious_threshold : Nat := 1

/-- Does the character list `pat` occur at the head of `s`? (Helper for
the embedding of the Python substring test `pat in s`.) -/
def charsLeadWith : List Char → List Char → Bool
  | [], _ => true
  | _ :: _, [] => false
  | a :: as, b :: bs => a == b && charsLeadWith as bs

/-- Does the character list `pat` occur contiguously anywhere in `s`? -/
def charsOccurIn (pat : List Char) : List Char → Bool
  | [] => charsLeadWith pat []
  | c :: rest => charsLeadWith pat (c :: rest) || charsOccurIn pat rest

/-- Embedding of the Python membership test `pat in s` on strings:
true iff `pat` is a contiguous substring of `s`. -/
def strContainsSub (s pat : String) : Bool := charsOccurIn pat.toList s.toList

/-- Embedding of Python `s.startswith(pat)`: `pat` occurs at the head of `s`. -/
def strStartsWith (s pat : String) : Bool := charsLeadWith pat.toList s.toList

/-- ASCII lower-casing of one character, the fragment of Python
`str.lower` the keyword check exercises (all keywords are ASCII). -/
def charLower (c : Char) : Char := if 'A' ≤ c && c ≤ 'Z' then Char.ofNat (c.toNat + 32) else c

/-- Embedding of Python `s.lower()` (ASCII fragment). -/
def strLower (s : String) : String := String.mk (s.toList.map charLower)

/-- The structural features the scorer reads off a URL, produced by the
external urlparse + tldextract collaborators (SmishGrade.py:135-141):
`hostname` ("" models both Python None and the empty string, i.e. the
falsy values tested at line 142), `path`, the registered domain
`main_domain` (tldextract top_domain_under_public_suffix), the
`subdomain` label, and the public `suffix` (without leading dot). -/
structure ParsedUrl where
  hostname : String
  path : String
  main_domain : String
  subdomain : String
  suffix : String
deriving Repr, DecidableEq

/-- The 4-tuple `analyze_url` returns (SmishGrade.py:194 and the early
returns at 143/146): total score, verdict string, ordered list of
triggered heuristic identifiers, resolved domain age. -/
structure AnalysisResult where
  score : Nat
  verdict : String
  heuristics_found : List String
  domain_age : Int
deriving Repr, DecidableEq

/-- The scheme normalization of SmishGrade.py:129-132: a URL that does
not start with "http://" or "https://" gets "http://" prepended whole
(whatever other scheme text it carries), otherwise it is parsed as is. -/
def normalize_url (url : String) : String :=
  if strStartsWith url "http://" || strStartsWith url "https://" then url
  else "http://" ++ url

/-- The heuristic-evaluation body of `analyze_url` (SmishGrade.py:152-194),
reached only after parsing succeeded, the hostname was non-empty, and the
H1 length branch did not fire (see `analyze_url` for the latter).
Each heuristic contributes its weight to the score and its identifier to
the list exactly when its condition holds, in source order H2..H7;
the verdict thresholds are applied at the end (SmishGrade.py:188-192). -/
def score_heuristics (is_ip : String → Bool) (ageLookup : String → Int)
    (url : String) (pu : ParsedUrl) : AnalysisResult :=
  let path := pu.path
  let tld := "." ++ pu.suffix
  -- SmishGrade.py:152-160  H2: hostname is a literal IP address
  let cond2 : Bool := is_ip pu.hostname
  -- SmishGrade.py:162-164  H3: "@" anywhere in the raw URL
  let cond3 : Bool := strContainsSub url "@"
  -- SmishGrade.py:166-170  H4: some suspicious keyword in path.lower(),
  -- counted once thanks to the break
  let cond4 : Bool := suspicious_keywords.any (fun kw => strContainsSub (strLower path) kw)
  -- SmishGrade.py:172-176  H5: subdomain label holds at least 2 dots
  let cond5 : Bool := decide (2 ≤ pu.subdomain.toList.count '.')
  -- SmishGrade.py:178-180  H6: "." ++ suffix is an abused TLD
  let cond6 : Bool := abused_TLD.contains tld
  -- SmishGrade.py:182-186  H7: resolved age of the registered domain in [0, 30]
  let domain_age := ageLookup pu.main_domain
  let cond7 : Bool := decide (0 ≤ domain_age ∧ domain_age ≤ 30)
  let total_score :=
    (if cond2 then heuristic_weights "H2_IP_Hostname" else 0) +
    (if cond3 then heuristic_weights "H3_At_Symbol" else 0) +
    (if cond4 then heuristic_weights "H4_Keywords" else 0) +
    (if cond5 then heuristic_weights "H5_Subdomains" else 0) +
    (if cond6 then heuristic_weights "H6_Abused_TLD" else 0) +
    (if cond7 then heuristic_weights "H7_Domain_Age" else 0)
  let heuristics_found :=
    (if cond2 then ["H2_IP_Hostname"] else []) ++
    (if cond3 then ["H3_At_Symbol"] else []) ++
    (if cond4 then ["H4_Keywords"] else []) ++
    (if cond5 then ["H5_Subdomains"] else []) ++
    (if cond6 then ["H6_Abused_TLD"] else []) ++
    (if cond7 then ["H7_Domain_Age"] else [])
  -- SmishGrade.py:188-192  verdict from thresholds
  let final_verdict :=
    if malicious_threshold ≤ total_score then "Malicious"
    else if suspicious_threshold ≤ total_score then "Suspicious"
    else "Benign"
  ⟨total_score, final_verdict, heuristics_found, domain_age⟩

/-- Embedding of `analyze_url` (SmishGrade.py:122-194). `parse` stands
for the urlparse + tldextract step on the normalized URL: `none` models a
raised parse exception (caught at line 144, yielding the Error-Parsing
result), `some pu` a successful extraction. A hostname of "" (Python
falsy) yields the Error-No-Hostname result (lines 142-143). The H1 length
branch (lines 148-150) adds the H1 weight and then evaluates
`heuristic_weights.append("H1_Length")` — but `heuristic_weights` is a
dict, which has no append method, so Python raises AttributeError out of
`analyze_url`; the embedding renders that uncaught exception as
`Except.error`. All other paths return normally via `score_heuristics`. -/
def analyze_url (parse : String → Option ParsedUrl) (is_ip : String → Bool)
    (ageLookup : String → Int) (url : String) : Except String AnalysisResult :=
  let url_to_parse := normalize_url url
  match parse url_to_parse with
  | none => .ok ⟨0, "Error-Parsing", [], -1⟩
  | some pu =>
    if pu.hostname = "" then .ok ⟨0, "Error-No-Hostname", [], -1⟩
    else if 75 < url.length then
      .error "AttributeError: dict object has no attribute append"
    else .ok (score_heuristics is_ip ageLookup url pu)

/-- The WHOIS record fields the code consumes: only `creation_date`
(SmishGrade.py:109-110). Python stores either nothing, a single datetime,
or a list of datetimes whose first element is used; `[]` models the falsy
no-creation-date case, a non-empty list models both the single-date case
(singleton) and the list case (head used), each date a whole-day count. -/
structure WhoisInfo where
  creation_date : List Int
deriving Repr, DecidableEq

/-- Embedding of `get_domain_age` (SmishGrade.py:97-120), the WHOIS age
cache. `whoisFn` is the external whois.whois collaborator (`.error`
models any raised exception), `now` the current UTC timestamp in days,
`cache` the in-memory dict as an association list. Returns the age, the
updated cache, and the number of external queries issued (0 on a hit,
1 on a miss). Every miss stores its outcome — computed age, or the
sentinel -1 on a missing creation date or any error — before returning. -/
def get_domain_age (whoisFn : String → Except String WhoisInfo) (now : Int)
    (cache : List (String × Int)) (domain : String) :
    Int × List (String × Int) × Nat :=
  match cache.lookup domain with
  | some age => (age, cache, 0)
  | none =>
    match whoisFn domain with
    | .ok domain_info =>
      match domain_info.creation_date with
      | [] => (-1, (domain, -1) :: cache, 1)
      | origin_date :: _ =>
        let age_in_days := now - origin_date
        (age_in_days, (domain, age_in_days) :: cache, 1)
    | .error _ => (-1, (domain, -1) :: cache, 1)

/-- The states the persisted cache file can be in when `check_cache`
opens it (SmishGrade.py:72-84): absent (FileNotFoundError), present but
not valid JSON (json.JSONDecodeError), or valid with stored entries. -/
inductive CacheFile where
  | missing : CacheFile
  | malformed : CacheFile
  | valid : List (String × Int) → CacheFile
deriving Repr, DecidableEq

/-- Embedding of `check_cache` (SmishGrade.py:72-84): a missing or
malformed cache file yields the empty cache (both handlers print a note
and assign {}), a valid file yields its entries. -/
def check_cache : CacheFile → List (String × Int)
  | CacheFile.missing => []
  | CacheFile.malformed => []
  | CacheFile.valid entries => entries

/-- Embedding of `save_cache` (SmishGrade.py:86-95). The write attempt is
a parameter (`.error` models any exception raised by open/json.dump);
the function catches every exception (line 94), prints, and returns
normally, so the caller always sees a normal `.ok ()` return. -/
def save_cache (writeOutcome : Except String Unit) : Except String Unit :=
  match writeOutcome with
  | .ok _ => .ok ()
  | .error _ => .ok ()

/-- Sum of the configured weights of a list of heuristic identifiers. -/
def sumWeights (hs : List String) : Nat := (hs.map heuristic_weights).sum

/-- The characters after the first "//" of a URL string (helper for the
model of the external urlparse collaborator). -/
def afterDoubleSlash : List Char → List Char
  | '/' :: '/' :: rest => rest
  | _ :: rest => afterDoubleSlash rest
  | [] => []

/-- Model of the external collaborator urllib.parse on a scheme-carrying
input, restricted to the fragment exercised here: the netloc is the text
between the first "//" and the next "/", and the hostname is the netloc
up to the port separator ":", lower-cased (userinfo and IPv6 brackets
are not exercised by the inputs considered). Used to witness what the
parse step does to a URL whose non-http scheme text was swallowed by the
normalization of SmishGrade.py:129-132. -/
def urlparse_hostname (s : String) : String :=
  let netloc := (afterDoubleSlash s.toList).takeWhile (fun c => c ≠ '/')
  String.mk ((netloc.takeWhile (fun c => c ≠ ':')).map charLower)

deriving instance DecidableEq for Except

theorem mem_ite_single {a b : String} {c : Bool} :
    a ∈ (if c then [b] else ([] : List String)) ↔ (c = true ∧ a = b) := by
  cases c <;> simp

theorem sumWeights_append (a b : List String) :
    sumWeights (a ++ b) = sumWeights a + sumWeights b := by
  simp [sumWeights]

theorem sumWeights_ite_single (c : Bool) (n : String) :
    sumWeights (if c then [n] else []) = if c then heuristic_weights n else 0 := by
  cases c <;> simp [sumWeights]

theorem score_heuristics_age (i : String → Bool) (a : String → Int) (url : String) (pu : ParsedUrl) :
    (score_heuristics i a url pu).domain_age = a pu.main_domain := rfl

theorem score_heuristics_verdict (i : String → Bool) (a : String → Int) (url : String) (pu : ParsedUrl) :
    (score_heuristics i a url pu).verdict =
      (if malicious_threshold ≤ (score_heuristics i a url pu).score then "Malicious"
       else if suspicious_threshold ≤ (score_heuristics i a url pu).score then "Suspicious"
       else "Benign") := rfl

theorem score_heuristics_sum (i : String → Bool) (a : String → Int) (url : String) (pu : ParsedUrl) :
    (score_heuristics i a url pu).score = sumWeights (score_heuristics i a url pu).heuristics_found := by
  simp only [score_heuristics]
  simp only [sumWeights_append, sumWeights_ite_single]

theorem mem_H5_iff (i : String → Bool) (a : String → Int) (url : String) (pu : ParsedUrl) :
    "H5_Subdomains" ∈ (score_heuristics i a url pu).heuristics_found ↔
      2 ≤ pu.subdomain.toList.count '.' := by
  simp only [score_heuristics, List.mem_append, mem_ite_single]
  simp

theorem mem_H7_iff (i : String → Bool) (a : String → Int) (url : String) (pu : ParsedUrl) :
    "H7_Domain_Age" ∈ (score_heuristics i a url pu).heuristics_found ↔
      (0 ≤ a pu.main_domain ∧ a pu.main_domain ≤ 30) := by
  simp only [score_heuristics, List.mem_append, mem_ite_single]
  simp

theorem analyze_url_ok_cases (parse : String → Option ParsedUrl) (is_ip : String → Bool)
    (ageLookup : String → Int) (url : String) (r : AnalysisResult)
    (h : analyze_url parse is_ip ageLookup url = .ok r) :
    (parse (normalize_url url) = none ∧ r = ⟨0, "Error-Parsing", [], -1⟩) ∨
    (∃ pu, parse (normalize_url url) = some pu ∧ pu.hostname = "" ∧
      r = ⟨0, "Error-No-Hostname", [], -1⟩) ∨
    (∃ pu, parse (normalize_url url) = some pu ∧ pu.hostname ≠ "" ∧ url.length ≤ 75 ∧
      r = score_heuristics is_ip ageLookup url pu) := by
  simp only [analyze_url] at h
  split at h
  next hp =>
    injection h with h
    exact Or.inl ⟨hp, h.symm⟩
  next pu hp =>
    split at h
    next hh =>
      injection h with h
      exact Or.inr (Or.inl ⟨pu, hp, hh, h.symm⟩)
    next hh =>
      split at h
      next hl => simp at h
      next hl =>
        injection h with h
        exact Or.inr (Or.inr ⟨pu, hp, hh, by omega, h.symm⟩)

/-- C1: the claim states that a URL longer than 75 characters adds the H1
weight, records "H1_Length", and returns normally (and that a long .xyz
URL scores H1_weight + H6_weight). The code instead evaluates
heuristic_weights.append("H1_Length") at SmishGrade.py:150 — an append on
the weights dict, which has no such method — so every URL longer than 75
characters raises AttributeError out of analyze_url and nothing is
returned. This theorem evaluates the embedded code at an 80-character
.xyz URL (with a parse fixture matching what urlparse and tldextract
produce for it) and shows the call ends in the embedded AttributeError
instead of a normal result. -/
theorem h1_length_attribute_error :
    analyze_url
      (fun _ => some ⟨"aaaaaaaaaaaaaaaaaaaaaaaaaaaaaaaaaaaaaaaaaaaaaaaaaaaaaaaaaaaaaaaaaaaaa.xyz", "",
        "aaaaaaaaaaaaaaaaaaaaaaaaaaaaaaaaaaaaaaaaaaaaaaaaaaaaaaaaaaaaaaaaaaaaa.xyz", "", "xyz"⟩)
      (fun _ => false) (fun _ => 1000)
      "http://aaaaaaaaaaaaaaaaaaaaaaaaaaaaaaaaaaaaaaaaaaaaaaaaaaaaaaaaaaaaaaaaaaaaa.xyz" =
    .error "AttributeError: dict object has no attribute append" := by decide

/-- C2: on every normal return of analyze_url, the H7 identifier is in
the triggered list exactly when the resolved domain age lies in the
inclusive range 0..30, and an age of -1 (unknown) never triggers H7 (the
score contribution follows from the score/list invariant, C9). -/
theorem h7_age_window (parse : String → Option ParsedUrl) (is_ip : String → Bool)
    (ageLookup : String → Int) (url : String) (r : AnalysisResult)
    (h : analyze_url parse is_ip ageLookup url = .ok r) :
    ("H7_Domain_Age" ∈ r.heuristics_found ↔ (0 ≤ r.domain_age ∧ r.domain_age ≤ 30)) ∧
    (r.domain_age = -1 → "H7_Domain_Age" ∉ r.heuristics_found) := by
  rcases analyze_url_ok_cases parse is_ip ageLookup url r h with
    ⟨-, rfl⟩ | ⟨pu, -, -, rfl⟩ | ⟨pu, -, -, -, rfl⟩
  · exact ⟨by simp, by simp⟩
  · exact ⟨by simp, by simp⟩
  · refine ⟨?_, ?_⟩
    · rw [score_heuristics_age]
      exact mem_H7_iff is_ip ageLookup url pu
    · intro hneg
      rw [score_heuristics_age] at hneg
      rw [mem_H7_iff]
      omega

/-- Witness for C2 at a concrete input: a .xyz domain aged 5 days
triggers H7 (together with H6). -/
theorem h7_age_window_witness :
    ("H7_Domain_Age" ∈ (["H6_Abused_TLD", "H7_Domain_Age"] : List String) ↔
      (0 ≤ (5 : Int) ∧ (5 : Int) ≤ 30)) ∧
    ((5 : Int) = -1 → "H7_Domain_Age" ∉ (["H6_Abused_TLD", "H7_Domain_Age"] : List String)) :=
  h7_age_window (fun _ => some ⟨"scam.xyz", "", "scam.xyz", "", "xyz"⟩) (fun _ => false)
    (fun _ => 5) "http://scam.xyz" ⟨70, "Malicious", ["H6_Abused_TLD", "H7_Domain_Age"], 5⟩
    (by decide)

/-- C3: on every normal, non-error return of analyze_url the verdict
follows the default thresholds: score 0 gives Benign, score in 1..19
gives Suspicious, score at least 20 gives Malicious. -/
theorem verdict_from_thresholds (parse : String → Option ParsedUrl) (is_ip : String → Bool)
    (ageLookup : String → Int) (url : String) (r : AnalysisResult)
    (h : analyze_url parse is_ip ageLookup url = .ok r)
    (h1 : r.verdict ≠ "Error-Parsing") (h2 : r.verdict ≠ "Error-No-Hostname") :
    (r.score = 0 → r.verdict = "Benign") ∧
    ((1 ≤ r.score ∧ r.score < 20) → r.verdict = "Suspicious") ∧
    (20 ≤ r.score → r.verdict = "Malicious") := by
  rcases analyze_url_ok_cases parse is_ip ageLookup url r h with
    ⟨-, rfl⟩ | ⟨pu, -, -, rfl⟩ | ⟨pu, -, -, -, rfl⟩
  · exact absurd rfl h1
  · exact absurd rfl h2
  · have hv := score_heuristics_verdict is_ip ageLookup url pu
    simp only [malicious_threshold, suspicious_threshold] at hv
    refine ⟨fun h0 => ?_, fun hs => ?_, fun hm => ?_⟩ <;> rw [hv]
    · rw [if_neg (by omega), if_neg (by omega)]
    · rw [if_neg (by omega), if_pos (by omega)]
    · rw [if_pos (by omega)]

/-- Witness for C3 at two concrete inputs: a keyword-only URL scoring
exactly 5 is Suspicious, and an abused-TLD URL scoring exactly 20 (the
malicious threshold boundary) is Malicious. -/
theorem verdict_from_thresholds_witness :
    (((5 : Nat) = 0 → ("Suspicious" : String) = "Benign") ∧
      ((1 ≤ (5 : Nat) ∧ (5 : Nat) < 20) → ("Suspicious" : String) = "Suspicious") ∧
      (20 ≤ (5 : Nat) → ("Suspicious" : String) = "Malicious")) ∧
    (((20 : Nat) = 0 → ("Malicious" : String) = "Benign") ∧
      ((1 ≤ (20 : Nat) ∧ (20 : Nat) < 20) → ("Malicious" : String) = "Suspicious") ∧
      (20 ≤ (20 : Nat) → ("Malicious" : String) = "Malicious")) :=
  ⟨verdict_from_thresholds (fun _ => some ⟨"example.com", "/login", "example.com", "", "com"⟩)
      (fun _ => false) (fun _ => 1000) "http://example.com/login"
      ⟨5, "Suspicious", ["H4_Keywords"], 1000⟩ (by decide) (by decide) (by decide),
    verdict_from_thresholds (fun _ => some ⟨"scam.xyz", "", "scam.xyz", "", "xyz"⟩)
      (fun _ => false) (fun _ => 1000) "http://scam.xyz"
      ⟨20, "Malicious", ["H6_Abused_TLD"], 1000⟩ (by decide) (by decide) (by decide)⟩

/-- C4: on every normal return of analyze_url for a URL whose extracted
subdomain label is that of the parse result, H5 is in the triggered list
exactly when the subdomain label holds at least two separator dots,
i.e. at least three subdomain components. -/
theorem h5_subdomain_separators (parse : String → Option ParsedUrl) (is_ip : String → Bool)
    (ageLookup : String → Int) (url : String) (pu : ParsedUrl) (r : AnalysisResult)
    (hp : parse (normalize_url url) = some pu)
    (hh : pu.hostname ≠ "")
    (h : analyze_url parse is_ip ageLookup url = .ok r) :
    "H5_Subdomains" ∈ r.heuristics_found ↔ 2 ≤ pu.subdomain.toList.count '.' := by
  rcases analyze_url_ok_cases parse is_ip ageLookup url r h with
    ⟨hn, rfl⟩ | ⟨pu', hp', h0, rfl⟩ | ⟨pu', hp', -, -, rfl⟩
  · rw [hp] at hn; cases hn
  · rw [hp] at hp'; injection hp' with e; subst e; exact absurd h0 hh
  · rw [hp] at hp'; injection hp' with e; subst e; exact mem_H5_iff is_ip ageLookup url pu

/-- Witness for C4 at the two inputs the claim names: the subdomain label
"a.b.c" (three components) triggers H5 and the label "www" (one
component) does not. -/
theorem h5_subdomain_separators_witness :
    ("H5_Subdomains" ∈ (["H5_Subdomains"] : List String) ↔
      2 ≤ ("a.b.c" : String).toList.count '.') ∧
    ("H5_Subdomains" ∈ ([] : List String) ↔
      2 ≤ ("www" : String).toList.count '.') :=
  ⟨h5_subdomain_separators
      (fun _ => some ⟨"a.b.c.example.com", "", "example.com", "a.b.c", "com"⟩)
      (fun _ => false) (fun _ => 1000) "http://a.b.c.example.com"
      ⟨"a.b.c.example.com", "", "example.com", "a.b.c", "com"⟩
      ⟨15, "Suspicious", ["H5_Subdomains"], 1000⟩ (by decide) (by decide) (by decide),
    h5_subdomain_separators
      (fun _ => some ⟨"www.example.com", "", "example.com", "www", "com"⟩)
      (fun _ => false) (fun _ => 1000) "http://www.example.com"
      ⟨"www.example.com", "", "example.com", "www", "com"⟩
      ⟨0, "Benign", [], 1000⟩ (by decide) (by decide) (by decide)⟩

/-- C5: when structural parsing fails (modelled by the parse collaborator
returning none, i.e. raising) analyze_url returns score 0, verdict
Error-Parsing, an empty heuristics list and age -1; when parsing succeeds
but the hostname is empty it returns score 0, verdict Error-No-Hostname,
an empty list and age -1. Both paths return before any heuristic or age
lookup is evaluated, as the returned empty list and age -1 record. -/
theorem parse_failure_terminal (parse : String → Option ParsedUrl) (is_ip : String → Bool)
    (ageLookup : String → Int) (url : String) :
    (parse (normalize_url url) = none →
      analyze_url parse is_ip ageLookup url = .ok ⟨0, "Error-Parsing", [], -1⟩) ∧
    (∀ pu, parse (normalize_url url) = some pu → pu.hostname = "" →
      analyze_url parse is_ip ageLookup url = .ok ⟨0, "Error-No-Hostname", [], -1⟩) := by
  constructor
  · intro hn
    simp [analyze_url, hn]
  · intro pu hp hh
    simp [analyze_url, hp, hh]

/-- Witness for C5: a URL on which parsing raises, and one that parses
with an empty hostname, at concrete inputs. -/
theorem parse_failure_terminal_witness :
    analyze_url (fun _ => none) (fun _ => false) (fun _ => 0) "" =
      .ok ⟨0, "Error-Parsing", [], -1⟩ ∧
    analyze_url (fun _ => some ⟨"", "", "", "", ""⟩) (fun _ => false) (fun _ => 0) "http://" =
      .ok ⟨0, "Error-No-Hostname", [], -1⟩ :=
  ⟨(parse_failure_terminal (fun _ => none) (fun _ => false) (fun _ => 0) "").1 rfl,
    (parse_failure_terminal (fun _ => some ⟨"", "", "", "", ""⟩) (fun _ => false) (fun _ => 0)
      "http://").2 ⟨"", "", "", "", ""⟩ rfl rfl⟩

/-- C6: the age cache as embedded in get_domain_age: a domain already
present (sentinel entries included) is answered from the cache with zero
external queries; after any call the returned age is stored under the
domain; a second lookup of the same domain returns the same age and the
same cache with zero external queries; and one call issues at most one
external query — so two successive lookups issue at most one in total. -/
theorem age_cache_lookup_props (whoisFn : String → Except String WhoisInfo) (now : Int)
    (cache : List (String × Int)) (domain : String) :
    (∀ v, cache.lookup domain = some v →
      get_domain_age whoisFn now cache domain = (v, cache, 0)) ∧
    ((get_domain_age whoisFn now cache domain).2.1.lookup domain =
      some (get_domain_age whoisFn now cache domain).1) ∧
    (get_domain_age whoisFn now (get_domain_age whoisFn now cache domain).2.1 domain =
      ((get_domain_age whoisFn now cache domain).1,
        (get_domain_age whoisFn now cache domain).2.1, 0)) ∧
    ((get_domain_age whoisFn now cache domain).2.2 ≤ 1) := by
  unfold get_domain_age
  cases hc : cache.lookup domain with
  | some v => simp [hc]
  | none =>
    cases hw : whoisFn domain with
    | ok info =>
      cases hd : info.creation_date with
      | nil => simp [hc, hw, hd, List.lookup]
      | cons d ds => simp [hc, hw, hd, List.lookup]
    | error e => simp [hc, hw, List.lookup]

/-- Witness for C6 at a concrete input: a cached domain (age 250) is
returned unchanged with zero external queries even though the external
provider would fail. -/
theorem age_cache_lookup_props_witness :
    get_domain_age (fun _ => Except.error "net down") 0 [("example.com", 250)] "example.com" =
      (250, [("example.com", 250)], 0) :=
  (age_cache_lookup_props (fun _ => Except.error "net down") 0
    [("example.com", 250)] "example.com").1 250 rfl

/-- C7: on a cache miss where the external provider raises any error, or
returns a record with no creation date, get_domain_age stores the
sentinel -1 under the domain and returns -1 (with its single external
query); the embedded function is total, so no exception reaches the
caller — the except branch of SmishGrade.py:117-120 absorbs them all. -/
theorem whois_failure_sentinel (whoisFn : String → Except String WhoisInfo) (now : Int)
    (cache : List (String × Int)) (domain : String)
    (hmiss : cache.lookup domain = none)
    (hfail : ∀ info, whoisFn domain = Except.ok info → info.creation_date = []) :
    get_domain_age whoisFn now cache domain = (-1, (domain, -1) :: cache, 1) := by
  unfold get_domain_age
  rw [hmiss]
  cases hw : whoisFn domain with
  | error e => rfl
  | ok info =>
    have hd := hfail info hw
    simp [hd]

/-- Witness for C7 at a concrete input: a provider timeout on an
uncached domain yields the stored sentinel -1. -/
theorem whois_failure_sentinel_witness :
    get_domain_age (fun _ => Except.error "timeout") 20000 [] "example.com" =
      (-1, [("example.com", -1)], 1) :=
  whois_failure_sentinel (fun _ => Except.error "timeout") 20000 [] "example.com" rfl
    (fun _ h => nomatch h)

/-- C8: cache persistence is best-effort and non-fatal: check_cache
yields the empty cache on a missing or malformed storage file, and
save_cache returns normally whatever the outcome of the underlying
write, so a save failure is never raised to the caller. -/
theorem cache_persistence_best_effort :
    check_cache CacheFile.missing = [] ∧ check_cache CacheFile.malformed = [] ∧
    ∀ w : Except String Unit, save_cache w = Except.ok () :=
  ⟨rfl, rfl, fun w => by cases w <;> rfl⟩

/-- C9: score/list consistency: on every normal, non-error return of
analyze_url the total score equals the sum of the configured weights of
exactly the heuristic identifiers in the returned triggered list. -/
theorem score_sum_invariant (parse : String → Option ParsedUrl) (is_ip : String → Bool)
    (ageLookup : String → Int) (url : String) (r : AnalysisResult)
    (h : analyze_url parse is_ip ageLookup url = .ok r)
    (h1 : r.verdict ≠ "Error-Parsing") (h2 : r.verdict ≠ "Error-No-Hostname") :
    r.score = sumWeights r.heuristics_found := by
  rcases analyze_url_ok_cases parse is_ip ageLookup url r h with
    ⟨-, rfl⟩ | ⟨pu, -, -, rfl⟩ | ⟨pu, -, -, -, rfl⟩
  · exact absurd rfl h1
  · exact absurd rfl h2
  · exact score_heuristics_sum is_ip ageLookup url pu

/-- Witness for C9 at the spec's end-to-end example: an IP-hostname URL
with the keyword "login" in its path scores 45 = 40 + 5, the sum of the
H2 and H4 weights. -/
theorem score_sum_invariant_witness :
    (45 : Nat) = sumWeights ["H2_IP_Hostname", "H4_Keywords"] :=
  score_sum_invariant (fun _ => some ⟨"192.168.1.1", "/login", "192.168.1.1", "", ""⟩)
    (fun _ => true) (fun _ => -1) "http://192.168.1.1/login"
    ⟨45, "Malicious", ["H2_IP_Hostname", "H4_Keywords"], -1⟩
    (by decide) (by decide) (by decide)

/-- C10: a URL that starts with neither "http://" nor "https://" —
whatever other scheme text it carries — has "http://" prepended to the
entire string before parsing; and on the claim's example, parsing the
normalized "ftp://example.com" gives hostname "ftp" (the model of the
urlparse collaborator), so the original scheme text lands in the
hostname position rather than being honored as a scheme. -/
theorem non_http_scheme_not_honored (url : String)
    (h1 : strStartsWith url "http://" = false) (h2 : strStartsWith url "https://" = false) :
    normalize_url url = "http://" ++ url ∧
    urlparse_hostname (normalize_url "ftp://example.com") = "ftp" := by
  refine ⟨?_, by decide⟩
  unfold normalize_url
  rw [h1, h2]
  simp

/-- Witness for C10 at the concrete input "ftp://example.com". -/
theorem non_http_scheme_not_honored_witness :
    normalize_url "ftp://example.com" = "http://" ++ "ftp://example.com" ∧
    urlparse_hostname (normalize_url "ftp://example.com") = "ftp" :=
  non_http_scheme_not_honored "ftp://example.com" (by decide) (by decide)
